import Mathlib

/-!
Verification of the MOZAIK Client-Auth library (src/src/lib.rs).

The library is a single struct, `AuthToken`, caching an OAuth2 client-credentials
bearer token.  `AuthToken::new` builds an oauth2 `BasicClient` (unwrapping the two URL
parses), performs one client-credentials exchange (unwrapping the result) and stores the
token, the issuance time and the validity duration.  `AuthToken::token` refreshes the
token when `issued_at.elapsed().unwrap().as_secs() >= expires_in.as_secs() - 15` and
returns the cached secret string.

The embedding below makes the external collaborators explicit parameters: the result of
each URL parse and the result the single exchange round-trip would produce are passed in,
and `SystemTime::now()` is a natural number of seconds.  Machine arithmetic is modelled
exactly: `Duration::as_secs` values are `u64`, so the subtraction `expires_in - 15`
wraps modulo 2 to the 64 on underflow (release profile; a debug build would abort there,
which refutes the same claims).  Every `unwrap` failure is an explicit `panic` outcome,
distinct from a normal return.
-/

namespace ClientAuth

/-- Configuration held by the oauth2 `BasicClient` built in `AuthToken::new`:
client id, client secret, parsed auth endpoint URL, parsed token endpoint URL.
It is created once in `new` and never written afterwards. -/
structure BasicClient where
  client_id : String
  client_secret : String
  auth_url : String
  token_url : String
deriving DecidableEq, Repr

/-- A response from the token-exchange round-trip (oauth2 crate): the access-token, and
the optional `expires_in` duration in whole seconds (`Duration::as_secs`). -/
structure TokenResponse where
  access_token : String
  expires_in : Option Nat
deriving DecidableEq, Repr

/-- The failure family of the exchange round-trip: network or transport failure,
non-success HTTP status from the token endpoint, malformed token response.
URL-parse failures happen before the exchange and are modelled separately as a
`none` parse result. -/
inductive ExchangeError where
  | network
  | httpStatus (code : Nat)
  | malformedResponse
deriving DecidableEq, Repr

/-- The `AuthToken` struct of src/src/lib.rs: the oauth2 client, the current access
token secret value, the issuance `SystemTime` (seconds since the epoch) and the
validity `Duration` (whole seconds, a `u64`). -/
structure AuthToken where
  client : BasicClient
  token : String
  issued_at : Nat
  expires_in : Nat
deriving DecidableEq, Repr

/-- Wrapping `u64` subtraction: the release-profile semantics of
`self.expires_in.as_secs() - 15` in `AuthToken::token`.  For `15 <= a < 2^64` this is
the exact difference; for `a < 15` it wraps around (a debug build would abort
instead, which changes nothing about which claims hold). -/
def u64Sub (a b : Nat) : Nat :=
  (a % 2 ^ 64 + (2 ^ 64 - b % 2 ^ 64)) % 2 ^ 64

/-- Outcome of one call to `AuthToken::token`: a normal return carrying the returned
string, the post-call struct fields and the number of exchange round-trips performed
during the call, or a panic from a failed `unwrap`, carrying the struct fields as the
call leaves them and the number of exchanges performed before the panic. -/
inductive TokenOutcome where
  | ok (ret : String) (st : AuthToken) (exchanges : Nat)
  | panic (st : AuthToken) (exchanges : Nat)
deriving DecidableEq, Repr

/-- Number of exchange round-trips performed during the call. -/
def TokenOutcome.exchanges : TokenOutcome → Nat
  | .ok _ _ n => n
  | .panic _ n => n

/-- The struct fields as the call leaves them. -/
def TokenOutcome.state : TokenOutcome → AuthToken
  | .ok _ s _ => s
  | .panic s _ => s

/-- Shallow embedding of `AuthToken::token` (src/src/lib.rs lines 75 to 93).
`now` is the `SystemTime::now()` observed during the call; `exch` is the result the
single `exchange_client_credentials` round-trip would produce if performed.
`issued_at.elapsed()` returns `Err` when the wall clock moved backwards and the code
unwraps it, hence the first panic branch.  The staleness check compares
`elapsed.as_secs()` against the wrapping `u64` difference `expires_in.as_secs() - 15`.
On a refresh the code unwraps the exchange result (second panic branch) and on success
assigns `token`, `issued_at` and `expires_in` before returning the secret. -/
def AuthToken.tokenFn (st : AuthToken) (now : Nat)
    (exch : Except ExchangeError TokenResponse) : TokenOutcome :=
  if now < st.issued_at then
    .panic st 0
  else if u64Sub st.expires_in 15 ≤ now - st.issued_at then
    match exch with
    | .error _ => .panic st 1
    | .ok r =>
        .ok r.access_token
          { client := st.client
            token := r.access_token
            issued_at := now
            expires_in := r.expires_in.getD 300 } 1
  else
    .ok st.token st 0

/-- Outcome of `AuthToken::new`: the constructed struct, or a panic from one of the
three `unwrap` calls (auth URL parse, token URL parse, initial exchange). -/
inductive NewOutcome where
  | ok (st : AuthToken)
  | panic
deriving DecidableEq, Repr

/-- Shallow embedding of `AuthToken::new` (src/src/lib.rs lines 46 to 73).
`authUrl` and `tokenUrl` are the results of `AuthUrl::new` and `TokenUrl::new`
(`none` is a URL parse error, which the code unwraps), `exch` is the result of the
initial client-credentials exchange (also unwrapped), and `now` is the
`SystemTime::now()` taken after the exchange succeeds. -/
def AuthToken.new (client_id client_secret : String)
    (authUrl tokenUrl : Option String)
    (exch : Except ExchangeError TokenResponse) (now : Nat) : NewOutcome :=
  match authUrl with
  | none => .panic
  | some au =>
    match tokenUrl with
    | none => .panic
    | some tu =>
      match exch with
      | .error _ => .panic
      | .ok r =>
          .ok { client :=
                  { client_id := client_id
                    client_secret := client_secret
                    auth_url := au
                    token_url := tu }
                token := r.access_token
                issued_at := now
                expires_in := r.expires_in.getD 300 }

/-- The spec state machine predicate, following the spec text word for word: a cached
token is Valid at time `now` when `elapsed < valid_for - margin`, computed over the
integers.  This is the spec-side definition, kept to compare the spec state machine
against the embedded code. -/
def ValidState (st : AuthToken) (now : Nat) : Prop :=
  (now : Int) - st.issued_at < (st.expires_in : Int) - 15

instance decValidState (st : AuthToken) (now : Nat) : Decidable (ValidState st now) :=
  inferInstanceAs (Decidable ((now : Int) - st.issued_at < (st.expires_in : Int) - 15))

/-- Fixed strings used for concrete witnesses and counterexamples. -/
def cid0 : String := "client-id"

def csec0 : String := "client-secret"

def au0 : String := "https://auth.example"

def tu0 : String := "https://token.example"

def conf0 : BasicClient := { client_id := cid0, client_secret := csec0,
                             auth_url := au0, token_url := tu0 }

def tokA : String := "tokenA"

def tokB : String := "tokenB"

/-- For a `u64` value of at least 15, the wrapping subtraction is the exact one. -/
theorem u64Sub_eq_sub (a : Nat) (h15 : 15 ≤ a) (hlt : a < 2 ^ 64) :
    u64Sub a 15 = a - 15 := by
  unfold u64Sub
  have h1 : a % 2 ^ 64 = a := Nat.mod_eq_of_lt hlt
  have h2 : (15 : Nat) % 2 ^ 64 = 15 := by norm_num
  rw [h1, h2]
  omega

/-- C1, counterexample.  The claim quantifies over every call: with a cached
`valid_for` of 10 seconds and an elapsed time of 290 seconds, elapsed is at least
`valid_for - 15` (which is -5 over the integers, 0 under truncation), so the claim
requires exactly one exchange; the code computes `10u64 - 15`, which wraps to
2^64 - 5, the staleness condition is false, and the call performs no exchange at
all, returning the cached token. -/
theorem c1_counterexample :
    ((290 : Int) ≥ (10 : Int) - 15) ∧ ((290 : Nat) ≥ 10 - 15) ∧
    AuthToken.tokenFn ⟨conf0, tokA, 0, 10⟩ 290 (.ok ⟨tokB, some 100⟩)
      = .ok tokA ⟨conf0, tokA, 0, 10⟩ 0 := by
  refine ⟨by norm_num, by norm_num, ?_⟩
  rfl

/-- C1, amended: restricted to cached states whose `valid_for` is at least the
15-second safety margin (so the `u64` subtraction in the check is exact).  For every
call to `token` with the clock not behind `issued_at`: when elapsed is at least
`valid_for - 15` the call performs exactly one exchange, and when that exchange
succeeds it replaces `token`, `issued_at` and `expires_in` with the response values
and returns the new token; when elapsed is strictly below the threshold the call
performs no exchange and returns the cached token with the state unchanged. -/
theorem c1_amended (st : AuthToken) (now : Nat)
    (exch : Except ExchangeError TokenResponse)
    (hclock : st.issued_at ≤ now) (hm : 15 ≤ st.expires_in)
    (hw : st.expires_in < 2 ^ 64) :
    (st.expires_in - 15 ≤ now - st.issued_at →
      (st.tokenFn now exch).exchanges = 1 ∧
      ∀ r, exch = .ok r →
        st.tokenFn now exch =
          .ok r.access_token
            { client := st.client
              token := r.access_token
              issued_at := now
              expires_in := r.expires_in.getD 300 } 1) ∧
    (now - st.issued_at < st.expires_in - 15 →
      st.tokenFn now exch = .ok st.token st 0) := by
  have hsub : u64Sub st.expires_in 15 = st.expires_in - 15 := u64Sub_eq_sub _ hm hw
  unfold AuthToken.tokenFn
  rw [if_neg (by omega : ¬ now < st.issued_at)]
  rw [hsub]
  constructor
  · intro hstale
    rw [if_pos hstale]
    constructor
    · cases exch <;> rfl
    · intro r hr
      subst hr
      rfl
  · intro hfresh
    rw [if_neg (by omega : ¬ st.expires_in - 15 ≤ now - st.issued_at)]

/-- C1, witness: the two concrete scenarios of the claim.  A fresh token with
`valid_for` 300 and elapsed 0 triggers no exchange, and elapsed 290 with
`valid_for` 300 triggers exactly one. -/
theorem c1_witness :
    AuthToken.tokenFn ⟨conf0, tokA, 0, 300⟩ 0 (.ok ⟨tokB, some 300⟩)
      = .ok tokA ⟨conf0, tokA, 0, 300⟩ 0 ∧
    (AuthToken.tokenFn ⟨conf0, tokA, 0, 300⟩ 290 (.ok ⟨tokB, some 300⟩)).exchanges
      = 1 := by
  constructor
  · exact (c1_amended ⟨conf0, tokA, 0, 300⟩ 0 (.ok ⟨tokB, some 300⟩)
      (by norm_num) (by norm_num) (by norm_num)).2 (by norm_num)
  · exact ((c1_amended ⟨conf0, tokA, 0, 300⟩ 290 (.ok ⟨tokB, some 300⟩)
      (by norm_num) (by norm_num) (by norm_num)).1 (by norm_num)).1

/-- C2: evaluation of the code at the failing input.  With a cached `valid_for` of
10 seconds (at most the 15-second margin) and elapsed 0, the claim and the spec say
the refresh condition is true and the call exchanges; the code computes the `u64`
difference `10 - 15`, which wraps to 2^64 - 5, the condition `0 >= 2^64 - 5` is
false, and the call serves the cached (soon-to-expire) token with no exchange. -/
theorem c2_code_eval :
    (10 : Nat) ≤ 15 ∧
    u64Sub 10 15 = 2 ^ 64 - 5 ∧
    AuthToken.tokenFn ⟨conf0, tokA, 0, 10⟩ 0 (.ok ⟨tokB, some 300⟩)
      = .ok tokA ⟨conf0, tokA, 0, 10⟩ 0 := by
  refine ⟨by norm_num, by norm_num [u64Sub], ?_⟩
  rfl

/-- C3: evaluation of the code at the failing inputs.  When the exchange fails, both
`AuthToken::new` and a refreshing `AuthToken::token` call `.unwrap()` on the error and
panic, aborting the host process; no `ExchangeError` value is ever returned to the
caller. -/
theorem c3_code_eval :
    AuthToken.new cid0 csec0 (some au0) (some tu0) (.error .network) 0 = .panic ∧
    AuthToken.new cid0 csec0 none (some tu0) (.ok ⟨tokA, some 300⟩) 0 = .panic ∧
    AuthToken.tokenFn ⟨conf0, tokA, 0, 300⟩ 290 (.error .network)
      = .panic ⟨conf0, tokA, 0, 300⟩ 1 := by
  exact ⟨rfl, rfl, rfl⟩

/-- C4: failure isolation.  For every call to `token` in which the refresh condition
holds (the staleness check of the code fires) and the exchange fails, the outcome is
the panic of the `unwrap`, carrying the struct fields exactly equal to their pre-call
values: `token`, `issued_at` and `expires_in` are untouched (the assignments only
happen after a successful exchange), no stale or empty token string is returned, and
the failure surfaces to the caller (as the panic of the unwrap). -/
theorem c4_failure_isolation (st : AuthToken) (now : Nat) (e : ExchangeError)
    (hclock : st.issued_at ≤ now)
    (hstale : u64Sub st.expires_in 15 ≤ now - st.issued_at) :
    st.tokenFn now (.error e) = .panic st 1 := by
  unfold AuthToken.tokenFn
  rw [if_neg (by omega : ¬ now < st.issued_at), if_pos hstale]

/-- C4, witness: a stale cached token (elapsed 290, `valid_for` 300) whose refresh
fails with a malformed response leaves the fields bit-identical. -/
theorem c4_witness :
    AuthToken.tokenFn ⟨conf0, tokA, 0, 300⟩ 290 (.error .malformedResponse)
      = .panic ⟨conf0, tokA, 0, 300⟩ 1 :=
  c4_failure_isolation ⟨conf0, tokA, 0, 300⟩ 290 .malformedResponse
    (by norm_num) (by norm_num [u64Sub])

/-- C5, counterexample.  The claim's exception clause asserts that with
`valid_for` at most 15 seconds every call performs a fresh exchange.  With a cached
`valid_for` of 10 and elapsed 1000 the call performs no exchange (the wrapped check
is false) and returns the cached token, whose remaining validity 10 - 1000 is far
below the 15-second margin: the accessor serves a long-expired token. -/
theorem c5_counterexample :
    (10 : Nat) ≤ 15 ∧
    (AuthToken.tokenFn ⟨conf0, tokA, 0, 10⟩ 1000 (.ok ⟨tokB, some 300⟩)).exchanges
      = 0 ∧
    ((0 : Int) + 10 - 1000 < 15) := by
  refine ⟨by norm_num, ?_, by norm_num⟩
  rfl

/-- C5, amended: for every successful call to `token`, if the returned (post-call)
token's `valid_for` exceeds the 15-second margin then its remaining validity
`issued_at + valid_for - now` at the moment of return is at least 15 seconds.
When `valid_for` is at most 15 the bound fails: the accessor does not refresh (the
`u64` subtraction in the staleness check wraps) and may serve the token past expiry. -/
theorem c5_amended (st : AuthToken) (now : Nat)
    (exch : Except ExchangeError TokenResponse)
    (ret : String) (stP : AuthToken) (n : Nat)
    (hw : st.expires_in < 2 ^ 64)
    (hok : st.tokenFn now exch = .ok ret stP n)
    (hm : 15 < stP.expires_in) :
    (15 : Int) ≤ (stP.issued_at : Int) + stP.expires_in - now := by
  unfold AuthToken.tokenFn at hok
  split at hok
  · exact TokenOutcome.noConfusion hok
  · rename_i hnb
    split at hok
    · rename_i hstale
      cases exch with
      | error e => exact TokenOutcome.noConfusion hok
      | ok r =>
          injection hok with h1 h2 h3
          subst h2
          dsimp only at hm ⊢
          omega
    · rename_i hfresh
      injection hok with h1 h2 h3
      subst h2
      have hsub : u64Sub st.expires_in 15 = st.expires_in - 15 :=
        u64Sub_eq_sub _ (by omega) hw
      rw [hsub] at hfresh
      omega

/-- C5, witness: a fresh cached token (`valid_for` 300, elapsed 100) is returned
with remaining validity 200, at least the margin. -/
theorem c5_witness :
    (15 : Int) ≤ ((0 : Nat) : Int) + ((300 : Nat) : Int) - ((100 : Nat) : Int) :=
  c5_amended ⟨conf0, tokA, 0, 300⟩ 100 (.ok ⟨tokB, some 300⟩) tokA
    ⟨conf0, tokA, 0, 300⟩ 0 (by norm_num) rfl (by norm_num)

/-- C6: default expiry fallback.  When the exchange response carries no
`expires_in`, `Option.getD` substitutes exactly 300 seconds, both in `new` and in a
refreshing `token` call: the token is never treated as unlimited-lifetime. -/
theorem c6_default_expiry (client_id client_secret au tu tok : String) (now : Nat)
    (st : AuthToken) (now2 : Nat)
    (hclock : st.issued_at ≤ now2)
    (hstale : u64Sub st.expires_in 15 ≤ now2 - st.issued_at) :
    AuthToken.new client_id client_secret (some au) (some tu) (.ok ⟨tok, none⟩) now
      = .ok { client := { client_id := client_id
                          client_secret := client_secret
                          auth_url := au
                          token_url := tu }
              token := tok
              issued_at := now
              expires_in := 300 } ∧
    st.tokenFn now2 (.ok ⟨tok, none⟩)
      = .ok tok { client := st.client
                  token := tok
                  issued_at := now2
                  expires_in := 300 } 1 := by
  refine ⟨rfl, ?_⟩
  unfold AuthToken.tokenFn
  rw [if_neg (by omega : ¬ now2 < st.issued_at), if_pos hstale]
  rfl

/-- C6, witness: concrete construction and refresh with an expiry-free response both
store exactly 300 seconds. -/
theorem c6_witness :
    AuthToken.new cid0 csec0 (some au0) (some tu0) (.ok ⟨tokA, none⟩) 7
      = .ok { client := conf0, token := tokA, issued_at := 7, expires_in := 300 } ∧
    AuthToken.tokenFn ⟨conf0, tokB, 0, 20⟩ 5 (.ok ⟨tokA, none⟩)
      = .ok tokA { client := conf0, token := tokA, issued_at := 5,
                   expires_in := 300 } 1 :=
  c6_default_expiry cid0 csec0 au0 tu0 tokA 7 ⟨conf0, tokB, 0, 20⟩ 5
    (by norm_num) (by norm_num [u64Sub])

/-- C7, counterexample.  When the server issues a token with `expires_in` of 10
seconds, construction succeeds and stores it, but the resulting state is not Valid
in the spec state machine even at elapsed 0 (0 < 10 - 15 is false): the initial
state after construction is immediately Stale, not Valid. -/
theorem c7_counterexample :
    AuthToken.new cid0 csec0 (some au0) (some tu0) (.ok ⟨tokA, some 10⟩) 0
      = .ok { client := conf0, token := tokA, issued_at := 0, expires_in := 10 } ∧
    ¬ ValidState { client := conf0, token := tokA, issued_at := 0,
                   expires_in := 10 } 0 := by
  refine ⟨rfl, ?_⟩
  unfold ValidState
  norm_num

/-- C7, amended: every successful construction returns a cache that already holds
the exchanged token, with `issued_at` equal to the construction time (so elapsed is
0) and `expires_in` taken from the response (default 300); the initial state is
Valid in the spec state machine whenever the issued validity exceeds the 15-second
margin (for shorter-lived tokens it is immediately Stale).  A cache is never
observable without a token: the only non-panic outcome of `new` is a fully
initialized struct. -/
theorem c7_amended (client_id client_secret au tu : String) (r : TokenResponse)
    (now : Nat) (hm : 15 < r.expires_in.getD 300) :
    AuthToken.new client_id client_secret (some au) (some tu) (.ok r) now
      = .ok { client := { client_id := client_id
                          client_secret := client_secret
                          auth_url := au
                          token_url := tu }
              token := r.access_token
              issued_at := now
              expires_in := r.expires_in.getD 300 } ∧
    ValidState { client := { client_id := client_id
                             client_secret := client_secret
                             auth_url := au
                             token_url := tu }
                 token := r.access_token
                 issued_at := now
                 expires_in := r.expires_in.getD 300 } now := by
  refine ⟨rfl, ?_⟩
  unfold ValidState
  dsimp only
  omega

/-- C7, witness: constructing at time 4 with a 100-second token yields the token,
`issued_at` 4, and a Valid initial state. -/
theorem c7_witness :
    AuthToken.new cid0 csec0 (some au0) (some tu0) (.ok ⟨tokA, some 100⟩) 4
      = .ok { client := conf0, token := tokA, issued_at := 4, expires_in := 100 } ∧
    ValidState { client := conf0, token := tokA, issued_at := 4,
                 expires_in := 100 } 4 :=
  c7_amended cid0 csec0 au0 tu0 ⟨tokA, some 100⟩ 4 (by norm_num)

/-- C8: frame condition.  For every call to `token`, whatever the outcome, the
`client` configuration (client id, client secret, and the two endpoint URLs) is
unchanged; and on every normal return the post-call fields are either all exactly
the pre-call ones (no refresh) or all three of `token`, `issued_at`, `expires_in`
are the response values installed together (refresh) — never a partial mixture. -/
theorem c8_frame (st : AuthToken) (now : Nat)
    (exch : Except ExchangeError TokenResponse) :
    (st.tokenFn now exch).state.client = st.client ∧
    ∀ ret stP n, st.tokenFn now exch = .ok ret stP n →
      stP = st ∨ ∃ r, exch = .ok r ∧
        stP = { client := st.client
                token := r.access_token
                issued_at := now
                expires_in := r.expires_in.getD 300 } := by
  unfold AuthToken.tokenFn
  split
  · exact ⟨rfl, fun ret stP n h => TokenOutcome.noConfusion h⟩
  · split
    · cases exch with
      | error e => exact ⟨rfl, fun ret stP n h => TokenOutcome.noConfusion h⟩
      | ok r =>
          refine ⟨rfl, fun ret stP n h => ?_⟩
          injection h with h1 h2 h3
          exact Or.inr ⟨r, rfl, h2.symm⟩
    · refine ⟨rfl, fun ret stP n h => ?_⟩
      injection h with h1 h2 h3
      exact Or.inl h2.symm

/-- C8, witness: a concrete refreshing call keeps the configuration and installs
the three response fields as a unit. -/
theorem c8_witness :
    (AuthToken.tokenFn ⟨conf0, tokA, 0, 300⟩ 290
        (.ok ⟨tokB, some 60⟩)).state.client = conf0 ∧
    (({ client := conf0, token := tokB, issued_at := 290,
        expires_in := 60 } : AuthToken) = ⟨conf0, tokA, 0, 300⟩ ∨
      ∃ r, (.ok ⟨tokB, some 60⟩ : Except ExchangeError TokenResponse) = .ok r ∧
        ({ client := conf0, token := tokB, issued_at := 290,
           expires_in := 60 } : AuthToken)
          = { client := conf0
              token := r.access_token
              issued_at := 290
              expires_in := r.expires_in.getD 300 }) := by
  constructor
  · exact (c8_frame ⟨conf0, tokA, 0, 300⟩ 290 (.ok ⟨tokB, some 60⟩)).1
  · exact (c8_frame ⟨conf0, tokA, 0, 300⟩ 290 (.ok ⟨tokB, some 60⟩)).2
      tokB { client := conf0, token := tokB, issued_at := 290, expires_in := 60 }
      1 rfl

/-- C9: when the wall clock observed during a `token` call is strictly before the
stored `issued_at`, `issued_at.elapsed()` is an `Err` and the `.unwrap()` on it
panics before any staleness evaluation or exchange, whatever the cached token's
remaining validity and whatever the exchanger would have answered: the call never
returns the cached token. -/
theorem c9_clock_backwards (st : AuthToken) (now : Nat)
    (exch : Except ExchangeError TokenResponse)
    (h : now < st.issued_at) :
    st.tokenFn now exch = .panic st 0 := by
  unfold AuthToken.tokenFn
  rw [if_pos h]

/-- C9, witness: a token issued at time 100 with 300 seconds of validity, observed
at time 50 (clock moved backwards), panics with zero exchanges even though the
token is well within its validity period. -/
theorem c9_witness :
    AuthToken.tokenFn ⟨conf0, tokA, 100, 300⟩ 50 (.ok ⟨tokB, some 300⟩)
      = .panic ⟨conf0, tokA, 100, 300⟩ 0 :=
  c9_clock_backwards ⟨conf0, tokA, 100, 300⟩ 50 (.ok ⟨tokB, some 300⟩)
    (by norm_num)

/-- C10: for every call to `token` that returns normally, the returned string is
exactly the `token` field of the post-call state: the accessor returns
`self.token.secret().to_owned()` after any refresh has been applied, never some
other token. -/
theorem c10_returns_cached (st : AuthToken) (now : Nat)
    (exch : Except ExchangeError TokenResponse)
    (ret : String) (stP : AuthToken) (n : Nat)
    (h : st.tokenFn now exch = .ok ret stP n) :
    ret = stP.token := by
  unfold AuthToken.tokenFn at h
  split at h
  · exact TokenOutcome.noConfusion h
  · split at h
    · cases exch with
      | error e => exact TokenOutcome.noConfusion h
      | ok r =>
          injection h with h1 h2 h3
          subst h2
          exact h1.symm
    · injection h with h1 h2 h3
      subst h2
      exact h1.symm

/-- C10, witness: a non-refreshing call returns exactly the cached token field. -/
theorem c10_witness : tokA = (⟨conf0, tokA, 0, 300⟩ : AuthToken).token :=
  c10_returns_cached ⟨conf0, tokA, 0, 300⟩ 10 (.ok ⟨tokB, some 300⟩) tokA
    ⟨conf0, tokA, 0, 300⟩ 0 rfl

end ClientAuth
